import Mathlib

/-
Verification of hbaselines/envs/snn4hrl/envs.py: the AntGatherEnv /
SwimmerGatherEnv / SnakeGatherEnv wrapper classes around the external
rllab/snn4hrl GatherEnv base class.

The wrapper's own code is embedded here directly.  The base class
(GatherEnv) is external to the repository: its step and reset results are
therefore treated as arbitrary inputs to the wrapper's transition
functions, and the attributes it installs on the instance are an abstract
record threaded through the state.
-/

namespace SNN4HRL

/-- Numpy dtype tag recorded on a gym Box space (the source passes
`dtype=np.float32`). -/
inductive Dtype where
  | float32
  | float64
  deriving DecidableEq

/-- A scalar bound of a gym Box: negative infinity, positive infinity, or a
finite numeric value (`Box(low=-float("inf"), high=float("inf"), ...)`). -/
inductive BoundVal where
  | neginf
  | posinf
  | finite (q : ℚ)
  deriving DecidableEq

/-- gym.spaces.Box as constructed in this file: a scalar low and high bound
broadcast to every coordinate of the given shape, with a dtype tag. -/
structure BoxSpace where
  low : BoundVal
  high : BoundVal
  shape : List Nat
  dtype : Dtype
  deriving DecidableEq

/-- Python slicing `l[-k:]` for a non-negative `k` (taking the last `k`
elements).  For `k = 0` the Python expression is `l[0:]`, the whole list;
for `k > len(l)` it clamps to the whole list. -/
def pySliceLast {α : Type} (l : List α) (k : Nat) : List α :=
  if k = 0 then l else l.drop (l.length - k)

/-- Python slicing `l[:-k]` for a non-negative `k` (dropping the last `k`
elements).  For `k = 0` the Python expression is `l[:0]`, the empty list;
for `k > len(l)` it clamps to the empty list. -/
def pyDropLast {α : Type} (l : List α) (k : Nat) : List α :=
  if k = 0 then [] else l.take (l.length - k)

/-- The underlying robot body model classes plugged in via the
MODEL_CLASS class constant of each variant. -/
inductive ModelClass where
  | AntEnv
  | SwimmerEnv
  | SnakeEnv
  deriving DecidableEq

/-- The attributes the external base class installs on the instance and
which the wrapper code never touches: the numeric configuration values and
the robot observation space descriptor. -/
structure OtherAttrs where
  n_apples : ℚ
  n_bombs : ℚ
  activity_range : ℚ
  robot_object_spacing : ℚ
  catch_range : ℚ
  sensor_range : ℚ
  sensor_span : ℚ
  coef_inner_rew : ℚ
  dying_cost : ℚ
  robot_observation_space : BoxSpace
  deriving DecidableEq

/-- The wrapper instance's state: the step counter and cached context the
wrapper itself mutates, the `n_bins` value it reads for slicing, the
HORIZON class constant it reads through the `horizon` property, and the
remaining attributes owned by the base class.  `α` is the element type of
observation vectors. -/
structure EnvState (α : Type) where
  step_number : Nat
  current_context : Option (List α)
  n_bins : Nat
  HORIZON : Nat
  other : OtherAttrs

/-- The tuple `(obs, reward, done, info)` returned by the external base
class's `step`, supplied to the wrapper as an input. -/
structure BaseStepResult (α : Type) where
  obs : List α
  reward : ℚ
  done : Bool
  info : List (String × ℚ)

/-- The tuple `(obs, reward, done, info)` the wrapper's `step` returns to
its caller. -/
structure StepReturn (α : Type) where
  obs : List α
  reward : ℚ
  done : Bool
  info : List (String × ℚ)
  deriving DecidableEq

/-- The arguments of the wrapper's constructor: the ten numeric
configuration keyword arguments plus the extra positional (`*args`) and
keyword (`**kwargs`) arguments, of an arbitrary type `σ`. -/
structure InitArgs (σ : Type) where
  n_apples : ℚ
  n_bombs : ℚ
  activity_range : ℚ
  robot_object_spacing : ℚ
  catch_range : ℚ
  n_bins : Nat
  sensor_range : ℚ
  sensor_span : ℚ
  coef_inner_rew : ℚ
  dying_cost : ℚ
  args : List σ
  kwargs : List (String × σ)

/-- The argument list the wrapper's constructor passes to the base class
constructor `super().__init__(...)`. -/
structure BaseInitCall (σ : Type) where
  n_apples : ℚ
  n_bombs : ℚ
  activity_range : ℚ
  robot_object_spacing : ℚ
  catch_range : ℚ
  n_bins : Nat
  sensor_range : ℚ
  sensor_span : ℚ
  coef_inner_rew : ℚ
  dying_cost : ℚ
  args : List σ
  kwargs : List (String × σ)

/-- The exact rational value of the IEEE-754 double produced by Python's
`2. * math.pi`, the default of the `sensor_span` keyword argument. -/
def floatTwoPi : ℚ := 884279719003555 / 2 ^ 47

namespace AntGatherEnv

/-- Class constant MODEL_CLASS of AntGatherEnv. -/
def MODEL_CLASS : ModelClass := ModelClass.AntEnv

/-- Class constant ORI_IND of AntGatherEnv. -/
def ORI_IND : Nat := 3

/-- Class constant HORIZON of AntGatherEnv. -/
def HORIZON : Nat := 500

/-- The `horizon` property: `return self.HORIZON`. -/
def horizon {α : Type} (s : EnvState α) : Nat := s.HORIZON

/-- The `observation_space` property: `return self.robot_observation_space`. -/
def observation_space {α : Type} (s : EnvState α) : BoxSpace :=
  s.other.robot_observation_space

/-- The `context_space` property:
`Box(low=-float("inf"), high=float("inf"), shape=(2 * self.n_bins,), dtype=np.float32)`. -/
def context_space {α : Type} (s : EnvState α) : BoxSpace :=
  { low := BoundVal.neginf
    high := BoundVal.posinf
    shape := [2 * s.n_bins]
    dtype := Dtype.float32 }

/-- The wrapper's `step`, given the tuple the delegated base-class call
returned.  It increments `self.step_number`, computes
`done = done or self.step_number == self.horizon`, caches
`self.current_context = obs[-2 * self.n_bins:]`, and returns
`(obs[:-2 * self.n_bins], reward, done, {})`. -/
def step {α : Type} (s : EnvState α) (base : BaseStepResult α) :
    EnvState α × StepReturn α :=
  ({ s with
      step_number := s.step_number + 1
      current_context := some (pySliceLast base.obs (2 * s.n_bins)) },
   { obs := pyDropLast base.obs (2 * s.n_bins)
     reward := base.reward
     done := base.done || decide (s.step_number + 1 = horizon s)
     info := [] })

/-- The wrapper's `reset(also_wrapped=True)`, given the observation the
delegated base-class `reset(also_wrapped)` returned.  It zeroes
`self.step_number`, caches `self.current_context = obs[-2 * self.n_bins:]`,
and returns `obs[:-2 * self.n_bins]`. -/
def reset {α : Type} (s : EnvState α) (also_wrapped : Bool)
    (baseObs : List α) : EnvState α × List α :=
  ({ s with
      step_number := 0
      current_context := some (pySliceLast baseObs (2 * s.n_bins)) },
   pyDropLast baseObs (2 * s.n_bins))

/-- The constructor body shared by the three variant classes, parameterized
by the HORIZON class constant the instance's `horizon` property will read:
it forwards every configuration argument (and the extra positional and
keyword arguments) verbatim to the base constructor, then sets
`self.step_number = 0` and `self.current_context = None`.  `battrs` stands
for the attributes the base constructor installs. -/
def initWith {σ : Type} (α : Type) (hor : Nat) (a : InitArgs σ)
    (battrs : OtherAttrs) : BaseInitCall σ × EnvState α :=
  ({ n_apples := a.n_apples
     n_bombs := a.n_bombs
     activity_range := a.activity_range
     robot_object_spacing := a.robot_object_spacing
     catch_range := a.catch_range
     n_bins := a.n_bins
     sensor_range := a.sensor_range
     sensor_span := a.sensor_span
     coef_inner_rew := a.coef_inner_rew
     dying_cost := a.dying_cost
     args := a.args
     kwargs := a.kwargs },
   { step_number := 0
     current_context := none
     n_bins := a.n_bins
     HORIZON := hor
     other := battrs })

/-- AntGatherEnv's constructor. -/
def init {σ : Type} (α : Type) (a : InitArgs σ) (battrs : OtherAttrs) :
    BaseInitCall σ × EnvState α :=
  initWith α HORIZON a battrs

/-- The default values of the constructor's keyword arguments:
`n_apples=8, n_bombs=8, activity_range=10., robot_object_spacing=2.,
catch_range=1., n_bins=10, sensor_range=6., sensor_span=2.*math.pi,
coef_inner_rew=0., dying_cost=0`, with no extra arguments. -/
def defaults (σ : Type) : InitArgs σ :=
  { n_apples := 8
    n_bombs := 8
    activity_range := 10
    robot_object_spacing := 2
    catch_range := 1
    n_bins := 10
    sensor_range := 6
    sensor_span := floatTwoPi
    coef_inner_rew := 0
    dying_cost := 0
    args := []
    kwargs := [] }

end AntGatherEnv

namespace SwimmerGatherEnv

/-- Class constant MODEL_CLASS of SwimmerGatherEnv. -/
def MODEL_CLASS : ModelClass := ModelClass.SwimmerEnv

/-- Class constant ORI_IND of SwimmerGatherEnv. -/
def ORI_IND : Nat := 2

/-- Class constant HORIZON of SwimmerGatherEnv. -/
def HORIZON : Nat := 500

/-- SwimmerGatherEnv inherits `step` from AntGatherEnv unchanged. -/
def step {α : Type} : EnvState α → BaseStepResult α → EnvState α × StepReturn α :=
  AntGatherEnv.step

/-- SwimmerGatherEnv inherits `reset` from AntGatherEnv unchanged. -/
def reset {α : Type} : EnvState α → Bool → List α → EnvState α × List α :=
  AntGatherEnv.reset

/-- SwimmerGatherEnv inherits the `horizon` property unchanged. -/
def horizon {α : Type} : EnvState α → Nat := AntGatherEnv.horizon

/-- SwimmerGatherEnv inherits the `observation_space` property unchanged. -/
def observation_space {α : Type} : EnvState α → BoxSpace :=
  AntGatherEnv.observation_space

/-- SwimmerGatherEnv inherits the `context_space` property unchanged. -/
def context_space {α : Type} : EnvState α → BoxSpace :=
  AntGatherEnv.context_space

/-- SwimmerGatherEnv's constructor: the inherited constructor body with
this class's HORIZON constant. -/
def init {σ : Type} (α : Type) (a : InitArgs σ) (battrs : OtherAttrs) :
    BaseInitCall σ × EnvState α :=
  AntGatherEnv.initWith α HORIZON a battrs

end SwimmerGatherEnv

namespace SnakeGatherEnv

/-- Class constant MODEL_CLASS of SnakeGatherEnv. -/
def MODEL_CLASS : ModelClass := ModelClass.SnakeEnv

/-- Class constant ORI_IND of SnakeGatherEnv. -/
def ORI_IND : Nat := 2

/-- Class constant HORIZON of SnakeGatherEnv. -/
def HORIZON : Nat := 800

/-- SnakeGatherEnv inherits `step` from AntGatherEnv unchanged. -/
def step {α : Type} : EnvState α → BaseStepResult α → EnvState α × StepReturn α :=
  AntGatherEnv.step

/-- SnakeGatherEnv inherits `reset` from AntGatherEnv unchanged. -/
def reset {α : Type} : EnvState α → Bool → List α → EnvState α × List α :=
  AntGatherEnv.reset

/-- SnakeGatherEnv inherits the `horizon` property unchanged. -/
def horizon {α : Type} : EnvState α → Nat := AntGatherEnv.horizon

/-- SnakeGatherEnv inherits the `observation_space` property unchanged. -/
def observation_space {α : Type} : EnvState α → BoxSpace :=
  AntGatherEnv.observation_space

/-- SnakeGatherEnv inherits the `context_space` property unchanged. -/
def context_space {α : Type} : EnvState α → BoxSpace :=
  AntGatherEnv.context_space

/-- SnakeGatherEnv's constructor: the inherited constructor body with this
class's HORIZON constant. -/
def init {σ : Type} (α : Type) (a : InitArgs σ) (battrs : OtherAttrs) :
    BaseInitCall σ × EnvState α :=
  AntGatherEnv.initWith α HORIZON a battrs

end SnakeGatherEnv

/-- Iterate the wrapper's `step` over a list of base-class step results,
keeping only the evolving wrapper state.  Models an episode's sequence of
step calls between two resets. -/
def runSteps {α : Type} (s : EnvState α) : List (BaseStepResult α) → EnvState α
  | [] => s
  | b :: bs => runSteps (AntGatherEnv.step s b).1 bs

/-- A concrete robot observation space descriptor, standing in for the one
the base class installs in test fixtures. -/
def testBox : BoxSpace :=
  { low := BoundVal.neginf
    high := BoundVal.posinf
    shape := [27]
    dtype := Dtype.float32 }

/-- Concrete base-class attributes used by the test fixtures. -/
def testAttrs : OtherAttrs :=
  { n_apples := 8
    n_bombs := 8
    activity_range := 10
    robot_object_spacing := 2
    catch_range := 1
    sensor_range := 6
    sensor_span := floatTwoPi
    coef_inner_rew := 0
    dying_cost := 0
    robot_observation_space := testBox }

/-- A freshly constructed instance with `n_bins = 0` (the constructor
accepts it) and the Ant horizon. -/
def zeroBinsState : EnvState Nat :=
  { step_number := 0
    current_context := none
    n_bins := 0
    HORIZON := 500
    other := testAttrs }

/-- A freshly constructed instance with `n_bins = 1` and the Ant horizon. -/
def oneBinState : EnvState Nat :=
  { step_number := 0
    current_context := none
    n_bins := 1
    HORIZON := 500
    other := testAttrs }

/-- An instance whose HORIZON constant is 1, used to exercise the horizon
cutoff on a short episode. -/
def shortHorizonState : EnvState Nat :=
  { step_number := 0
    current_context := none
    n_bins := 1
    HORIZON := 1
    other := testAttrs }

/-- An instance whose step counter has already passed its HORIZON of 3. -/
def pastHorizonState : EnvState Nat :=
  { step_number := 5
    current_context := none
    n_bins := 1
    HORIZON := 3
    other := testAttrs }

/-- A base-class step result with a one-element observation. -/
def baseObsOne : BaseStepResult Nat :=
  { obs := [7], reward := 0, done := false, info := [] }

/-- A base-class step result with a three-element observation. -/
def baseObsThree : BaseStepResult Nat :=
  { obs := [1, 2, 3], reward := 0, done := false, info := [] }

/- ------------------------------------------------------------------ -/
/- Helper lemmas shared by the claim theorems.                         -/
/- ------------------------------------------------------------------ -/

/-- The step counter after a `step` call is the previous counter plus one. -/
theorem step_fst_step_number {α : Type} (s : EnvState α) (b : BaseStepResult α) :
    (AntGatherEnv.step s b).1.step_number = s.step_number + 1 := rfl

/-- A `step` call leaves the HORIZON constant unchanged. -/
theorem step_fst_HORIZON {α : Type} (s : EnvState α) (b : BaseStepResult α) :
    (AntGatherEnv.step s b).1.HORIZON = s.HORIZON := rfl

/-- A `reset` call zeroes the step counter. -/
theorem reset_fst_step_number {α : Type} (s : EnvState α) (aw : Bool) (o : List α) :
    (AntGatherEnv.reset s aw o).1.step_number = 0 := rfl

/-- A `reset` call leaves the HORIZON constant unchanged. -/
theorem reset_fst_HORIZON {α : Type} (s : EnvState α) (aw : Bool) (o : List α) :
    (AntGatherEnv.reset s aw o).1.HORIZON = s.HORIZON := rfl

/-- The `done` flag returned by `step` is the base flag or-ed with the test
that the incremented counter equals the horizon. -/
theorem step_snd_done {α : Type} (s : EnvState α) (b : BaseStepResult α) :
    (AntGatherEnv.step s b).2.done
      = (b.done || decide (s.step_number + 1 = s.HORIZON)) := rfl

/-- Iterating `step` over a list of base results adds the list's length to
the step counter. -/
theorem runSteps_step_number {α : Type} (bs : List (BaseStepResult α))
    (s : EnvState α) :
    (runSteps s bs).step_number = s.step_number + bs.length := by
  induction bs generalizing s with
  | nil => simp [runSteps]
  | cons b bs ih =>
      rw [runSteps, ih, step_fst_step_number]
      simp
      omega

/-- Iterating `step` leaves the HORIZON constant unchanged. -/
theorem runSteps_HORIZON {α : Type} (bs : List (BaseStepResult α))
    (s : EnvState α) :
    (runSteps s bs).HORIZON = s.HORIZON := by
  induction bs generalizing s with
  | nil => rfl
  | cons b bs ih => rw [runSteps, ih, step_fst_HORIZON]

/- ------------------------------------------------------------------ -/
/- Claim theorems.                                                     -/
/- ------------------------------------------------------------------ -/

/-- C1 (counterexample): on an instance with `n_bins = 0` the claim fails:
Python's `obs[:-0]` is the empty list and `obs[-0:]` is the whole list, so
a one-element raw base observation yields an empty returned observation and
a full-observation context, not the raw observation with its last 0
elements removed and an empty context. -/
theorem C1_counterexample :
    ¬ ((AntGatherEnv.step zeroBinsState baseObsOne).2.obs
          = baseObsOne.obs.take
              (baseObsOne.obs.length - 2 * zeroBinsState.n_bins)
        ∧ (AntGatherEnv.step zeroBinsState baseObsOne).1.current_context
          = some (baseObsOne.obs.drop
              (baseObsOne.obs.length - 2 * zeroBinsState.n_bins))) := by
  decide

/-- C1 (amended): for every instance with `n_bins ≥ 1`, both `step` and
`reset` return the raw base observation with its last `2 * n_bins` elements
removed and set `current_context` to exactly those removed elements. -/
theorem C1_obs_context_split {α : Type} (s : EnvState α)
    (b : BaseStepResult α) (aw : Bool) (o : List α) (h : 0 < s.n_bins) :
    (AntGatherEnv.step s b).2.obs
        = b.obs.take (b.obs.length - 2 * s.n_bins)
    ∧ (AntGatherEnv.step s b).1.current_context
        = some (b.obs.drop (b.obs.length - 2 * s.n_bins))
    ∧ (AntGatherEnv.reset s aw o).2
        = o.take (o.length - 2 * s.n_bins)
    ∧ (AntGatherEnv.reset s aw o).1.current_context
        = some (o.drop (o.length - 2 * s.n_bins)) := by
  have h2 : 2 * s.n_bins ≠ 0 := by omega
  refine ⟨?_, ?_, ?_, ?_⟩ <;>
    simp [AntGatherEnv.step, AntGatherEnv.reset, pyDropLast, pySliceLast, h2]

/-- C1 (witness): the amended split behaviour at a concrete instance with
`n_bins = 1` and a three-element base observation. -/
theorem C1_witness :
    0 < oneBinState.n_bins
    ∧ ((AntGatherEnv.step oneBinState baseObsThree).2.obs
          = baseObsThree.obs.take
              (baseObsThree.obs.length - 2 * oneBinState.n_bins)
      ∧ (AntGatherEnv.step oneBinState baseObsThree).1.current_context
          = some (baseObsThree.obs.drop
              (baseObsThree.obs.length - 2 * oneBinState.n_bins))
      ∧ (AntGatherEnv.reset oneBinState true [9, 8, 7]).2
          = [9, 8, 7].take ([9, 8, 7].length - 2 * oneBinState.n_bins)
      ∧ (AntGatherEnv.reset oneBinState true [9, 8, 7]).1.current_context
          = some ([9, 8, 7].drop
              ([9, 8, 7].length - 2 * oneBinState.n_bins))) :=
  ⟨by decide,
   C1_obs_context_split oneBinState baseObsThree true [9, 8, 7] (by decide)⟩

/-- C2: on the `horizon`-th step call since the last reset (the call that
brings the step counter up to the horizon property's value), the returned
done flag is true regardless of the base class's done value. -/
theorem C2_done_at_horizon {α : Type} (s : EnvState α) (aw : Bool)
    (o : List α) (bs : List (BaseStepResult α)) (b : BaseStepResult α)
    (h : bs.length + 1 = AntGatherEnv.horizon s) :
    (AntGatherEnv.step (runSteps (AntGatherEnv.reset s aw o).1 bs) b).2.done
      = true := by
  have hn : (runSteps (AntGatherEnv.reset s aw o).1 bs).step_number
      = bs.length := by
    rw [runSteps_step_number, reset_fst_step_number]
    omega
  have hh : (runSteps (AntGatherEnv.reset s aw o).1 bs).HORIZON
      = s.HORIZON := by
    rw [runSteps_HORIZON, reset_fst_HORIZON]
  rw [step_snd_done, hn, hh]
  have hfire : bs.length + 1 = s.HORIZON := h
  simp [hfire]

/-- C2 (witness): on an instance whose HORIZON is 1, the first step call
after a reset returns done = true even though the base reports false. -/
theorem C2_witness :
    ([] : List (BaseStepResult Nat)).length + 1
        = AntGatherEnv.horizon shortHorizonState
    ∧ (AntGatherEnv.step
        (runSteps (AntGatherEnv.reset shortHorizonState true []).1 [])
        baseObsOne).2.done = true :=
  ⟨by decide,
   C2_done_at_horizon shortHorizonState true [] [] baseObsOne (by decide)⟩

/-- C3: immediately after any `reset` call returns, the instance's
step counter equals zero. -/
theorem C3_reset_zeroes_counter {α : Type} (s : EnvState α) (aw : Bool)
    (o : List α) :
    (AntGatherEnv.reset s aw o).1.step_number = 0 := rfl

/-- C4: the step counter starts an episode at zero after a reset, every
step call increments it by exactly one (hence it never decreases under
step), and after any k step calls since a reset it equals k. -/
theorem C4_counter_monotone {α : Type} (s : EnvState α)
    (b : BaseStepResult α) (aw : Bool) (o : List α)
    (bs : List (BaseStepResult α)) :
    (AntGatherEnv.step s b).1.step_number = s.step_number + 1
    ∧ s.step_number ≤ (AntGatherEnv.step s b).1.step_number
    ∧ (AntGatherEnv.reset s aw o).1.step_number = 0
    ∧ (runSteps (AntGatherEnv.reset s aw o).1 bs).step_number = bs.length := by
  refine ⟨step_fst_step_number s b, ?_, reset_fst_step_number s aw o, ?_⟩
  · rw [step_fst_step_number]
    omega
  · rw [runSteps_step_number, reset_fst_step_number]
    omega

/-- C5 (counterexample): on an instance with `n_bins = 0`, the
context_space descriptor has length `2 * 0 = 0`, but a step with a
one-element raw base observation stores the whole observation in
`current_context` (Python's `obs[-0:]` is the whole list), so the
descriptor length differs from the number of elements split off. -/
theorem C5_counterexample :
    ¬ ((AntGatherEnv.context_space zeroBinsState).shape
        = [((AntGatherEnv.step zeroBinsState baseObsOne).1.current_context.getD
            []).length]) := by
  decide

/-- C5 (amended): context_space is the Box with lower bound negative
infinity and upper bound positive infinity in every coordinate, of shape
`(2 * n_bins,)` and dtype float32; and whenever `n_bins ≥ 1` and the raw
base observation has at least `2 * n_bins` elements, the number of elements
split off into `current_context` by a step equals that length `2 * n_bins`. -/
theorem C5_context_space {α : Type} (s : EnvState α) (b : BaseStepResult α) :
    AntGatherEnv.context_space s
        = { low := BoundVal.neginf
            high := BoundVal.posinf
            shape := [2 * s.n_bins]
            dtype := Dtype.float32 }
    ∧ (0 < s.n_bins → 2 * s.n_bins ≤ b.obs.length →
        ((AntGatherEnv.step s b).1.current_context.getD []).length
          = 2 * s.n_bins) := by
  refine ⟨rfl, ?_⟩
  intro h1 h2
  have h3 : 2 * s.n_bins ≠ 0 := by omega
  simp [AntGatherEnv.step, pySliceLast, h3]
  omega

/-- C5 (witness): the amended descriptor statement at a concrete instance
with `n_bins = 1` and a three-element base observation. -/
theorem C5_witness :
    AntGatherEnv.context_space oneBinState
        = { low := BoundVal.neginf
            high := BoundVal.posinf
            shape := [2 * oneBinState.n_bins]
            dtype := Dtype.float32 }
    ∧ 0 < oneBinState.n_bins
    ∧ 2 * oneBinState.n_bins ≤ baseObsThree.obs.length
    ∧ ((AntGatherEnv.step oneBinState baseObsThree).1.current_context.getD
          []).length = 2 * oneBinState.n_bins :=
  ⟨(C5_context_space oneBinState baseObsThree).1, by decide, by decide,
   (C5_context_space oneBinState baseObsThree).2 (by decide) (by decide)⟩

/-- C6: the three variant classes share identical step, reset, horizon,
observation_space and context_space implementations, their constructors
are the one shared constructor body applied to each class's HORIZON
constant, and they differ only in the values of the class constants
MODEL_CLASS, ORI_IND and HORIZON. -/
theorem C6_variants_identical :
    AntGatherEnv.MODEL_CLASS = ModelClass.AntEnv
    ∧ AntGatherEnv.ORI_IND = 3
    ∧ AntGatherEnv.HORIZON = 500
    ∧ SwimmerGatherEnv.MODEL_CLASS = ModelClass.SwimmerEnv
    ∧ SwimmerGatherEnv.ORI_IND = 2
    ∧ SwimmerGatherEnv.HORIZON = 500
    ∧ SnakeGatherEnv.MODEL_CLASS = ModelClass.SnakeEnv
    ∧ SnakeGatherEnv.ORI_IND = 2
    ∧ SnakeGatherEnv.HORIZON = 800
    ∧ @SwimmerGatherEnv.step = @AntGatherEnv.step
    ∧ @SnakeGatherEnv.step = @AntGatherEnv.step
    ∧ @SwimmerGatherEnv.reset = @AntGatherEnv.reset
    ∧ @SnakeGatherEnv.reset = @AntGatherEnv.reset
    ∧ @SwimmerGatherEnv.horizon = @AntGatherEnv.horizon
    ∧ @SnakeGatherEnv.horizon = @AntGatherEnv.horizon
    ∧ @SwimmerGatherEnv.observation_space = @AntGatherEnv.observation_space
    ∧ @SnakeGatherEnv.observation_space = @AntGatherEnv.observation_space
    ∧ @SwimmerGatherEnv.context_space = @AntGatherEnv.context_space
    ∧ @SnakeGatherEnv.context_space = @AntGatherEnv.context_space
    ∧ (∀ (σ α : Type) (a : InitArgs σ) (t : OtherAttrs),
        AntGatherEnv.init α a t
          = AntGatherEnv.initWith α AntGatherEnv.HORIZON a t)
    ∧ (∀ (σ α : Type) (a : InitArgs σ) (t : OtherAttrs),
        SwimmerGatherEnv.init α a t
          = AntGatherEnv.initWith α SwimmerGatherEnv.HORIZON a t)
    ∧ (∀ (σ α : Type) (a : InitArgs σ) (t : OtherAttrs),
        SnakeGatherEnv.init α a t
          = AntGatherEnv.initWith α SnakeGatherEnv.HORIZON a t) :=
  ⟨rfl, rfl, rfl, rfl, rfl, rfl, rfl, rfl, rfl, rfl, rfl, rfl, rfl, rfl,
   rfl, rfl, rfl, rfl, rfl,
   fun _ _ _ _ => rfl, fun _ _ _ _ => rfl, fun _ _ _ _ => rfl⟩

/-- C7: the constructor forwards every numeric configuration keyword
argument and all extra positional and keyword arguments to the base class
constructor with exactly the caller's value, and when the caller omits
them the documented defaults are forwarded. -/
theorem C7_init_forwards_args {σ : Type} (α : Type) (a : InitArgs σ)
    (t : OtherAttrs) :
    ((AntGatherEnv.init α a t).1.n_apples = a.n_apples
    ∧ (AntGatherEnv.init α a t).1.n_bombs = a.n_bombs
    ∧ (AntGatherEnv.init α a t).1.activity_range = a.activity_range
    ∧ (AntGatherEnv.init α a t).1.robot_object_spacing
        = a.robot_object_spacing
    ∧ (AntGatherEnv.init α a t).1.catch_range = a.catch_range
    ∧ (AntGatherEnv.init α a t).1.n_bins = a.n_bins
    ∧ (AntGatherEnv.init α a t).1.sensor_range = a.sensor_range
    ∧ (AntGatherEnv.init α a t).1.sensor_span = a.sensor_span
    ∧ (AntGatherEnv.init α a t).1.coef_inner_rew = a.coef_inner_rew
    ∧ (AntGatherEnv.init α a t).1.dying_cost = a.dying_cost
    ∧ (AntGatherEnv.init α a t).1.args = a.args
    ∧ (AntGatherEnv.init α a t).1.kwargs = a.kwargs)
    ∧ ((AntGatherEnv.init α (AntGatherEnv.defaults σ) t).1.n_apples = 8
    ∧ (AntGatherEnv.init α (AntGatherEnv.defaults σ) t).1.n_bombs = 8
    ∧ (AntGatherEnv.init α (AntGatherEnv.defaults σ) t).1.activity_range = 10
    ∧ (AntGatherEnv.init α (AntGatherEnv.defaults σ) t).1.robot_object_spacing
        = 2
    ∧ (AntGatherEnv.init α (AntGatherEnv.defaults σ) t).1.catch_range = 1
    ∧ (AntGatherEnv.init α (AntGatherEnv.defaults σ) t).1.n_bins = 10
    ∧ (AntGatherEnv.init α (AntGatherEnv.defaults σ) t).1.sensor_range = 6
    ∧ (AntGatherEnv.init α (AntGatherEnv.defaults σ) t).1.sensor_span
        = floatTwoPi
    ∧ (AntGatherEnv.init α (AntGatherEnv.defaults σ) t).1.coef_inner_rew = 0
    ∧ (AntGatherEnv.init α (AntGatherEnv.defaults σ) t).1.dying_cost = 0
    ∧ (AntGatherEnv.init α (AntGatherEnv.defaults σ) t).1.args = []
    ∧ (AntGatherEnv.init α (AntGatherEnv.defaults σ) t).1.kwargs = []) :=
  ⟨⟨rfl, rfl, rfl, rfl, rfl, rfl, rfl, rfl, rfl, rfl, rfl, rfl⟩,
   ⟨rfl, rfl, rfl, rfl, rfl, rfl, rfl, rfl, rfl, rfl, rfl, rfl⟩⟩

/-- C8: a step call mutates only the step counter and the cached context of
the wrapper's state; `n_bins`, the HORIZON constant and every attribute
installed by the base class are left unchanged. -/
theorem C8_step_frame {α : Type} (s : EnvState α) (b : BaseStepResult α) :
    (AntGatherEnv.step s b).1.n_bins = s.n_bins
    ∧ (AntGatherEnv.step s b).1.HORIZON = s.HORIZON
    ∧ (AntGatherEnv.step s b).1.other = s.other :=
  ⟨rfl, rfl, rfl⟩

/-- C9: the info dictionary returned by every step call is the empty
dictionary, whatever info dictionary the base class produced. -/
theorem C9_info_discarded {α : Type} (s : EnvState α) (b : BaseStepResult α) :
    (AntGatherEnv.step s b).2.info = [] := rfl

/-- C10: the horizon condition fires exactly when the incremented counter
equals the horizon: the returned done flag is true iff the base reported
done or the incremented counter equals the horizon, and once the counter
has passed the horizon the returned done flag is exactly the base's. -/
theorem C10_done_exact_equality {α : Type} (s : EnvState α)
    (b : BaseStepResult α) :
    ((AntGatherEnv.step s b).2.done = true
        ↔ (b.done = true ∨ s.step_number + 1 = AntGatherEnv.horizon s))
    ∧ (AntGatherEnv.horizon s < s.step_number + 1
        → (AntGatherEnv.step s b).2.done = b.done) := by
  constructor
  · rw [step_snd_done]
    simp [AntGatherEnv.horizon]
  · intro hlt
    rw [step_snd_done]
    have : ¬ (s.step_number + 1 = s.HORIZON) := by
      have hh : AntGatherEnv.horizon s = s.HORIZON := rfl
      omega
    simp [this]

/-- C10 (witness): on an instance whose counter (5) has passed its HORIZON
of 3, the next step call returns the base's done flag unchanged. -/
theorem C10_witness :
    AntGatherEnv.horizon pastHorizonState < pastHorizonState.step_number + 1
    ∧ (AntGatherEnv.step pastHorizonState baseObsOne).2.done
        = baseObsOne.done :=
  ⟨by decide,
   (C10_done_exact_equality pastHorizonState baseObsOne).2 (by decide)⟩

end SNN4HRL
